import Mathlib

/-!
Shallow embedding of the handle-lifetime and binding-safety layer of the
`vuers` repository (crate `libvue_compiler_sfc` plus the top-level `src`
generation of the same design).

The foreign engine (Hermes runtime hosting the Vue SFC compiler) is modelled
as an oracle: a structure of pure functions, one per FFI entry point the
bindings call.  Raw FFI handles (`HermesHandle`, a `u64` on the Rust side,
with `0` the invalid sentinel) are modelled as `Nat`; the bindings only ever
compare handles against the sentinel and pass them back to the engine, so no
64-bit wraparound is observable.  Strings crossing the boundary are modelled
at the C level: a nullable pointer to a NUL-terminated byte sequence, decoded
exactly as Rust's `CStr::to_str().unwrap_or("")` does (UTF-8 validation).

Side effects of the bindings (the `hermes_handle_free` release calls) are
made explicit: operations that free handles return, besides their value, the
list of events they issue.
-/

/-- A C string as returned by the engine across the FFI boundary: either a
null pointer or the byte sequence up to the terminating NUL (each byte a
value < 256, no interior NUL). -/
inductive CStr
  | null
  | bytes (bs : List Nat)
deriving DecidableEq

/-- UTF-8 decoding, the model of Rust's `CStr::to_str` validation: returns
`none` for ill-formed input (stray continuation bytes, overlong encodings,
surrogates, code points above U+10FFFF, truncated sequences). -/
def utf8Decode : List Nat → Option (List Char)
  | [] => some []
  | b :: rest =>
    if b < 0x80 then
      (utf8Decode rest).map (fun cs => Char.ofNat b :: cs)
    else if b < 0xC2 then
      none
    else if b < 0xE0 then
      match rest with
      | b1 :: rest2 =>
        if 0x80 ≤ b1 ∧ b1 < 0xC0 then
          (utf8Decode rest2).map (fun cs =>
            Char.ofNat ((b - 0xC0) * 0x40 + (b1 - 0x80)) :: cs)
        else none
      | [] => none
    else if b < 0xF0 then
      match rest with
      | b1 :: b2 :: rest3 =>
        if 0x80 ≤ b1 ∧ b1 < 0xC0 ∧ 0x80 ≤ b2 ∧ b2 < 0xC0 then
          let cp := (b - 0xE0) * 0x1000 + (b1 - 0x80) * 0x40 + (b2 - 0x80)
          if cp < 0x800 then none
          else if 0xD800 ≤ cp ∧ cp < 0xE000 then none
          else (utf8Decode rest3).map (fun cs => Char.ofNat cp :: cs)
        else none
      | _ => none
    else if b < 0xF5 then
      match rest with
      | b1 :: b2 :: b3 :: rest4 =>
        if 0x80 ≤ b1 ∧ b1 < 0xC0 ∧ 0x80 ≤ b2 ∧ b2 < 0xC0 ∧ 0x80 ≤ b3 ∧ b3 < 0xC0 then
          let cp := (b - 0xF0) * 0x40000 + (b1 - 0x80) * 0x1000
            + (b2 - 0x80) * 0x40 + (b3 - 0x80)
          if cp < 0x10000 then none
          else if 0x110000 ≤ cp then none
          else (utf8Decode rest4).map (fun cs => Char.ofNat cp :: cs)
        else none
      | _ => none
    else none

/-- `util::ptr_to_str` (src/src/bindings/util.rs and the crate's util module):
null pointer becomes `""`; otherwise `CStr::from_ptr(ptr).to_str().unwrap_or("")`,
i.e. ill-formed UTF-8 also becomes `""`.  Total by construction. -/
def ptr_to_str : CStr → String
  | .null => ""
  | .bytes bs =>
    match utf8Decode bs with
    | some cs => String.mk cs
    | none => ""

/-- `Handle` (types/handle.rs / bindings/handle.rs): pairs a raw handle value
(`NonZeroU64` on the Rust side, nonzero by construction through `Handle.new`)
with its owning runtime, identified here by a numeric id. -/
structure Handle where
  raw : Nat
  owner : Nat
deriving DecidableEq

/-- `Handle::new(raw, runtime)`: `NonZeroU64::new(raw.0).map(|raw| Handle { raw, runtime })`. -/
def Handle.new (raw : Nat) (owner : Nat) : Option Handle :=
  if raw = 0 then none else some ⟨raw, owner⟩

/-- A `hermes_handle_free(runtime, handle)` call issued by the bindings. -/
structure FreeEvent where
  runtime : Nat
  handle : Nat
deriving DecidableEq

/-- `impl Drop for Handle`: `hermes_handle_free(*self.runtime, HermesHandle(self.raw.get()))` —
one release call against the owning runtime, carrying the stored raw value. -/
def Handle.dropEvents (h : Handle) : List FreeEvent := [⟨h.owner, h.raw⟩]

/-- The accessor operations `Handle::raw()` and `Handle::runtime()`. -/
inductive HandleOp
  | getRaw
  | getRuntime
deriving DecidableEq

/-- Release calls issued by an accessor operation: both accessors only read
fields, they issue none. -/
def Handle.opFreeEvents (_h : Handle) (_op : HandleOp) : List FreeEvent := []

/-- The release calls issued over a wrapper's whole life: any sequence of
accessor operations while in scope, then the `Drop` at scope exit. -/
def Handle.lifecycleEvents (h : Handle) (ops : List HandleOp) : List FreeEvent :=
  (ops.map h.opFreeEvents).flatten ++ h.dropEvents

/-- The engine oracle: one pure function per FFI entry point the bindings
call, describing what the foreign engine returns.  Handles and runtime-side
state are folded into the oracle, which models one fixed runtime's behaviour
(the bindings always pass the one owning runtime as first FFI argument). -/
structure Engine where
  vue_parse : String → String → Nat
  vue_parse_result_descriptor : Nat → Nat
  vue_parse_result_error_count : Nat → Nat
  vue_parse_result_error_message : Nat → Nat → CStr
  vue_compile_template : String → String → String → Bool → Nat → Nat
  vue_template_result_error_count : Nat → Nat
  vue_compile_style : String → String → String → Bool → Nat
  vue_compile_script : Nat → String → Bool → Nat
  vue_script_result_bindings : Nat → Nat
  vue_descriptor_style_count : Nat → Nat
  vue_descriptor_style_at : Nat → Nat → Nat
  vue_style_is_scoped : Nat → Bool
  vue_style_has_module : Nat → Bool
  vue_style_module_value : Nat → CStr
  vue_block_src : Nat → CStr
  vue_script_has_setup : Nat → Bool
  vue_script_setup_value : Nat → CStr
  vue_block_attrs_count : Nat → Nat
  vue_block_attrs_key_at : Nat → Nat → CStr
  vue_block_attrs_is_bool_at : Nat → Nat → Bool
  vue_block_attrs_value_at : Nat → Nat → CStr
  vue_script_imports_count : Nat → Nat
  vue_script_imports_key_at : Nat → Nat → CStr
  vue_script_imports_value_at : Nat → Nat → Nat
  vue_import_binding_is_type : Nat → Bool
  vue_import_binding_imported : Nat → CStr
  vue_import_binding_source : Nat → CStr
  vue_import_binding_is_from_setup : Nat → Bool

/-- An engine answering every query with the invalid/empty value; concrete
engines for small scenarios are built by updating its fields. -/
def Engine.trivial : Engine where
  vue_parse := fun _ _ => 0
  vue_parse_result_descriptor := fun _ => 0
  vue_parse_result_error_count := fun _ => 0
  vue_parse_result_error_message := fun _ _ => .null
  vue_compile_template := fun _ _ _ _ _ => 0
  vue_template_result_error_count := fun _ => 0
  vue_compile_style := fun _ _ _ _ => 0
  vue_compile_script := fun _ _ _ => 0
  vue_script_result_bindings := fun _ => 0
  vue_descriptor_style_count := fun _ => 0
  vue_descriptor_style_at := fun _ _ => 0
  vue_style_is_scoped := fun _ => false
  vue_style_has_module := fun _ => false
  vue_style_module_value := fun _ => .null
  vue_block_src := fun _ => .null
  vue_script_has_setup := fun _ => false
  vue_script_setup_value := fun _ => .null
  vue_block_attrs_count := fun _ => 0
  vue_block_attrs_key_at := fun _ _ => .null
  vue_block_attrs_is_bool_at := fun _ _ => false
  vue_block_attrs_value_at := fun _ _ => .null
  vue_script_imports_count := fun _ => 0
  vue_script_imports_key_at := fun _ _ => .null
  vue_script_imports_value_at := fun _ _ => 0
  vue_import_binding_is_type := fun _ => false
  vue_import_binding_imported := fun _ => .null
  vue_import_binding_source := fun _ => .null
  vue_import_binding_is_from_setup := fun _ => false

/-- `Error` (bindings/error.rs): a descriptive message. -/
structure Error where
  msg : String
deriving DecidableEq

/-- `Compiler` (bindings/compiler.rs): owns one runtime, identified here by
a numeric id (the engine's behaviour is the `Engine` oracle). -/
structure Compiler where
  runtime : Nat
deriving DecidableEq

/-- `ok_or_else` on the Rust side: adapt an optional value into a result. -/
def okOrElse (o : Option α) (e : Error) : Except Error α :=
  match o with
  | some a => .ok a
  | none => .error e

/-- `ParseOutput` (types/parse_output.rs): wraps one owned `Handle`. -/
structure ParseOutput where
  h : Handle
deriving DecidableEq

/-- `Descriptor` (types/descriptor.rs): wraps one owned `Handle`. -/
structure Descriptor where
  h : Handle
deriving DecidableEq

/-- `TemplateOutput` (types/template_output.rs): wraps one owned `Handle`. -/
structure TemplateOutput where
  h : Handle
deriving DecidableEq

/-- `ScriptOutput` (types/script_output.rs): wraps one owned `Handle`. -/
structure ScriptOutput where
  h : Handle
deriving DecidableEq

/-- `StyleOutput` (types/style_output.rs): wraps one owned `Handle`. -/
structure StyleOutput where
  h : Handle
deriving DecidableEq

/-- `TemplateBlock` (types/template_block.rs): wraps one owned `Handle`. -/
structure TemplateBlock where
  h : Handle
deriving DecidableEq

/-- `ScriptBlock` (types/script_block.rs): wraps one owned `Handle`. -/
structure ScriptBlock where
  h : Handle
deriving DecidableEq

/-- `StyleBlock` (types/style_block.rs): wraps one owned `Handle`. -/
structure StyleBlock where
  h : Handle
deriving DecidableEq

/-- `CustomBlock` (types/custom_block.rs): wraps one owned `Handle`. -/
structure CustomBlock where
  h : Handle
deriving DecidableEq

/-- `ScriptOutput::bindings_handle`: `vue_script_result_bindings(runtime, raw)`,
a non-owning raw handle. -/
def ScriptOutput.bindings_handle (e : Engine) (so : ScriptOutput) : Nat :=
  e.vue_script_result_bindings so.h.raw

/-- `Compiler::parse`: calls `vue_parse`; if the returned handle is not valid
(`0`), returns the typed error; otherwise wraps it in a `ParseOutput`. -/
def Compiler.parse (e : Engine) (c : Compiler) (source filename : String) :
    Except Error ParseOutput :=
  let handle := e.vue_parse source filename
  if handle = 0 then .error ⟨"Parse returned invalid handle"⟩
  else .ok ⟨⟨handle, c.runtime⟩⟩

/-- `Compiler::compile_template`: resolves the optional bindings handle
(`HermesHandle::INVALID`, i.e. `0`, when absent), calls
`vue_compile_template`, and errors exactly on an invalid returned handle. -/
def Compiler.compile_template (e : Engine) (c : Compiler)
    (source filename id : String) (scoped_flag : Bool)
    (bindings : Option ScriptOutput) : Except Error TemplateOutput :=
  let bindings_handle := (bindings.map (fun b => b.bindings_handle e)).getD 0
  let handle := e.vue_compile_template source filename id scoped_flag bindings_handle
  if handle = 0 then .error ⟨"compile_template returned invalid handle"⟩
  else .ok ⟨⟨handle, c.runtime⟩⟩

/-- `Compiler::compile_style`: calls `vue_compile_style` and errors exactly on
an invalid returned handle. -/
def Compiler.compile_style (e : Engine) (c : Compiler)
    (source filename id : String) (scoped_flag : Bool) : Except Error StyleOutput :=
  let handle := e.vue_compile_style source filename id scoped_flag
  if handle = 0 then .error ⟨"compile_style returned invalid handle"⟩
  else .ok ⟨⟨handle, c.runtime⟩⟩

/-- `Descriptor::compile_script`: calls `vue_compile_script`, then
`Handle::new(handle, runtime).map(ScriptOutput::from_handle).ok_or_else(...)`. -/
def Descriptor.compile_script (e : Engine) (d : Descriptor)
    (id : String) (is_prod : Bool) : Except Error ScriptOutput :=
  let handle := e.vue_compile_script d.h.raw id is_prod
  okOrElse ((Handle.new handle d.h.owner).map ScriptOutput.mk)
    ⟨"compile_script returned invalid handle"⟩

/-- `ParseOutput::descriptor`: `Handle::new(vue_parse_result_descriptor(rt, raw), rt).map(Descriptor::from_handle)`. -/
def ParseOutput.descriptor (e : Engine) (po : ParseOutput) : Option Descriptor :=
  (Handle.new (e.vue_parse_result_descriptor po.h.raw) po.h.owner).map Descriptor.mk

/-- `ParseOutput::error_count`. -/
def ParseOutput.error_count (e : Engine) (po : ParseOutput) : Nat :=
  e.vue_parse_result_error_count po.h.raw

/-- `ParseOutput::has_errors`: `self.error_count() > 0 || self.descriptor().is_none()`. -/
def ParseOutput.has_errors (e : Engine) (po : ParseOutput) : Bool :=
  decide (po.error_count e > 0) || (po.descriptor e).isNone

/-- `TemplateOutput::error_count`. -/
def TemplateOutput.error_count (e : Engine) (t : TemplateOutput) : Nat :=
  e.vue_template_result_error_count t.h.raw

/-- `TemplateOutput::has_errors`: `self.error_count() > 0`. -/
def TemplateOutput.has_errors (e : Engine) (t : TemplateOutput) : Bool :=
  decide (t.error_count e > 0)

/-- `Descriptor::style_count`. -/
def Descriptor.style_count (e : Engine) (d : Descriptor) : Nat :=
  e.vue_descriptor_style_count d.h.raw

/-- `Descriptor::styles`: `(0..count).filter_map(|index| Handle::new(vue_descriptor_style_at(rt, raw, index), rt).map(StyleBlock::from_handle))`. -/
def Descriptor.styles (e : Engine) (d : Descriptor) : List StyleBlock :=
  (List.range (d.style_count e)).filterMap fun index =>
    (Handle.new (e.vue_descriptor_style_at d.h.raw index) d.h.owner).map StyleBlock.mk

/-- `StyleBlock::is_scoped`. -/
def StyleBlock.is_scoped (e : Engine) (s : StyleBlock) : Bool :=
  e.vue_style_is_scoped s.h.raw

/-- `Descriptor::has_scoped_style`: `self.styles().any(|s| s.is_scoped())`. -/
def Descriptor.has_scoped_style (e : Engine) (d : Descriptor) : Bool :=
  (d.styles e).any fun s => s.is_scoped e

/-- `TemplateBlock::src`: read `vue_block_src` through `ptr_to_str`; empty
string means absent, translated to `None`. -/
def TemplateBlock.src (e : Engine) (b : TemplateBlock) : Option String :=
  let s := ptr_to_str (e.vue_block_src b.h.raw)
  if s.isEmpty then none else some s

/-- `ScriptBlock::src`: same body as the other blocks' `src`. -/
def ScriptBlock.src (e : Engine) (b : ScriptBlock) : Option String :=
  let s := ptr_to_str (e.vue_block_src b.h.raw)
  if s.isEmpty then none else some s

/-- `StyleBlock::src`: same body as the other blocks' `src`. -/
def StyleBlock.src (e : Engine) (b : StyleBlock) : Option String :=
  let s := ptr_to_str (e.vue_block_src b.h.raw)
  if s.isEmpty then none else some s

/-- `CustomBlock::src`: same body as the other blocks' `src`. -/
def CustomBlock.src (e : Engine) (b : CustomBlock) : Option String :=
  let s := ptr_to_str (e.vue_block_src b.h.raw)
  if s.isEmpty then none else some s

/-- `ScriptBlock::is_setup`: `vue_script_has_setup`. -/
def ScriptBlock.is_setup (e : Engine) (b : ScriptBlock) : Bool :=
  e.vue_script_has_setup b.h.raw

/-- `ScriptBlock::setup_value`: `None` when not a setup block; otherwise the
engine string with the empty-means-absent translation. -/
def ScriptBlock.setup_value (e : Engine) (b : ScriptBlock) : Option String :=
  if !b.is_setup e then none
  else
    let s := ptr_to_str (e.vue_script_setup_value b.h.raw)
    if s.isEmpty then none else some s

/-- `StyleBlock::has_module`: `vue_style_has_module`. -/
def StyleBlock.has_module (e : Engine) (s : StyleBlock) : Bool :=
  e.vue_style_has_module s.h.raw

/-- `StyleBlock::module_name`: `None` when `has_module` is false; otherwise
the engine string with the empty-means-absent translation. -/
def StyleBlock.module_name (e : Engine) (b : StyleBlock) : Option String :=
  if !b.has_module e then none
  else
    let s := ptr_to_str (e.vue_style_module_value b.h.raw)
    if s.isEmpty then none else some s

/-- `AttrValue` (types/attr_value.rs): a string-valued attribute or a
boolean-flag attribute. -/
inductive AttrValue
  | String (s : String)
  | Bool (b : Bool)
deriving DecidableEq

/-- Extensional model of Rust's `HashMap<String, α>`: the mapping from keys
to values.  `insert` overwrites the binding for an existing key. -/
def HMap (α : Type) := String → Option α

/-- `HashMap::new` / `HashMap::with_capacity`: the empty mapping. -/
def HMap.empty {α : Type} : HMap α := fun _ => none

/-- `HashMap::insert(k, v)`: bind `k` to `v`, keep all other bindings. -/
def HMap.insert {α : Type} (m : HMap α) (k : String) (v : α) : HMap α :=
  fun q => if q = k then some v else m q

/-- The key string the attrs loop reads at index `i`:
`ptr_to_str(vue_block_attrs_key_at(rt, handle, i)).to_string()`. -/
def attr_key_at (e : Engine) (handle i : Nat) : String :=
  ptr_to_str (e.vue_block_attrs_key_at handle i)

/-- The attribute value the attrs loop builds at index `i`: ask the engine
whether the attribute is boolean; if so `Bool(true)`, else the engine's
value string. -/
def attr_value_at (e : Engine) (handle i : Nat) : AttrValue :=
  if e.vue_block_attrs_is_bool_at handle i then .Bool true
  else .String (ptr_to_str (e.vue_block_attrs_value_at handle i))

/-- `get_block_attrs` (types/custom_block.rs): iterate attribute indices
`0..vue_block_attrs_count`, inserting each entry keyed by its name. -/
def get_block_attrs (e : Engine) (handle : Nat) : HMap AttrValue :=
  (List.range (e.vue_block_attrs_count handle)).foldl
    (fun attrs i => attrs.insert (attr_key_at e handle i) (attr_value_at e handle i))
    HMap.empty

/-- `TemplateBlock::attrs`: `get_block_attrs(rt, raw)`. -/
def TemplateBlock.attrs (e : Engine) (b : TemplateBlock) : HMap AttrValue :=
  get_block_attrs e b.h.raw

/-- `ScriptBlock::attrs`: `get_block_attrs(rt, raw)`. -/
def ScriptBlock.attrs (e : Engine) (b : ScriptBlock) : HMap AttrValue :=
  get_block_attrs e b.h.raw

/-- `StyleBlock::attrs`: `get_block_attrs(rt, raw)`. -/
def StyleBlock.attrs (e : Engine) (b : StyleBlock) : HMap AttrValue :=
  get_block_attrs e b.h.raw

/-- `CustomBlock::attrs`: `get_block_attrs(rt, raw)`. -/
def CustomBlock.attrs (e : Engine) (b : CustomBlock) : HMap AttrValue :=
  get_block_attrs e b.h.raw

/-- `ImportBinding` (types/import_binding.rs): the four scalar fields copied
out of a secondary import-binding handle.  Note it holds no handle. -/
structure ImportBinding where
  is_type : Bool
  imported : String
  source : String
  is_from_setup : Bool
deriving DecidableEq

/-- FFI calls the `imports()` loop issues that mention an index or a
secondary handle. -/
inductive ImportEv
  | key_read (i : Nat)
  | fetch (handle : Nat)
  | field_read (handle : Nat)
  | free (handle : Nat)
deriving DecidableEq

/-- One iteration of the `ScriptBlock::imports` loop (types/script_block.rs):
read the key, fetch the secondary handle; if it is valid, copy the four
scalar fields, insert the record, and free the secondary handle.  Besides
updating the map, the iteration appends the events it issues. -/
def imports_step (e : Engine) (braw : Nat)
    (acc : HMap ImportBinding × List ImportEv) (i : Nat) :
    HMap ImportBinding × List ImportEv :=
  let key := ptr_to_str (e.vue_script_imports_key_at braw i)
  let handle := e.vue_script_imports_value_at braw i
  if handle ≠ 0 then
    let is_type := e.vue_import_binding_is_type handle
    let imported := ptr_to_str (e.vue_import_binding_imported handle)
    let source := ptr_to_str (e.vue_import_binding_source handle)
    let is_from_setup := e.vue_import_binding_is_from_setup handle
    (acc.1.insert key ⟨is_type, imported, source, is_from_setup⟩,
      acc.2 ++ [.key_read i, .fetch handle, .field_read handle, .field_read handle,
        .field_read handle, .field_read handle, .free handle])
  else
    (acc.1, acc.2 ++ [.key_read i, .fetch handle])

/-- `ScriptBlock::imports_count`. -/
def ScriptBlock.imports_count (e : Engine) (b : ScriptBlock) : Nat :=
  e.vue_script_imports_count b.h.raw

/-- `ScriptBlock::imports`: loop over `0..imports_count`, returning the map
together with the full event trace the call issues. -/
def ScriptBlock.imports (e : Engine) (b : ScriptBlock) :
    HMap ImportBinding × List ImportEv :=
  (List.range (b.imports_count e)).foldl (imports_step e b.h.raw) (HMap.empty, [])

/-- Specification-side shape of one iteration's event trace: the free of the
secondary handle, when the handle is valid, comes immediately after the four
scalar field reads and closes the iteration. -/
def import_iter_trace (e : Engine) (braw i : Nat) : List ImportEv :=
  let handle := e.vue_script_imports_value_at braw i
  if handle ≠ 0 then
    [.key_read i, .fetch handle, .field_read handle, .field_read handle,
      .field_read handle, .field_read handle, .free handle]
  else
    [.key_read i, .fetch handle]

/-- The `ImportBinding` record the `imports()` loop builds from a valid
secondary handle: the four scalar fields copied out of it. -/
def import_record (e : Engine) (handle : Nat) : ImportBinding :=
  ⟨e.vue_import_binding_is_type handle,
    ptr_to_str (e.vue_import_binding_imported handle),
    ptr_to_str (e.vue_import_binding_source handle),
    e.vue_import_binding_is_from_setup handle⟩

/-- Engine whose string-returning entry points answer with a null pointer,
while reporting a setup script block and a CSS-modules style block. -/
def nullValueEngine : Engine :=
  { Engine.trivial with
    vue_script_has_setup := fun _ => true
    vue_style_has_module := fun _ => true }

/-- Engine for the P4 attribute scenario `<style scoped lang="scss">`: two
attributes, index 0 the boolean flag `scoped`, index 1 the string-valued
`lang="scss"` (key/value bytes are the UTF-8 of "scoped", "lang", "scss"). -/
def attrsDemoEngine : Engine :=
  { Engine.trivial with
    vue_block_attrs_count := fun _ => 2
    vue_block_attrs_key_at := fun _ i =>
      if i = 0 then .bytes [115, 99, 111, 112, 101, 100] else .bytes [108, 97, 110, 103]
    vue_block_attrs_is_bool_at := fun _ i => i == 0
    vue_block_attrs_value_at := fun _ _ => .bytes [115, 99, 115, 115] }

/-- Engine for the two-style-block scenario: a descriptor with two style
blocks, the first (handle 1) not scoped, the second (handle 2) scoped. -/
def twoStyleEngine : Engine :=
  { Engine.trivial with
    vue_descriptor_style_count := fun _ => 2
    vue_descriptor_style_at := fun _ i => i + 1
    vue_style_is_scoped := fun h => h == 2 }

/-! ### Shared helper lemmas -/

theorem opFreeEvents_flatten_nil (h : Handle) (ops : List HandleOp) :
    (ops.map h.opFreeEvents).flatten = [] := by
  induction ops with
  | nil => rfl
  | cons a l ih => simp [Handle.opFreeEvents, ih]

theorem attrs_foldl_lookup (e : Engine) (handle : Nat) (l : List Nat)
    (m : HMap AttrValue) (k : String) :
    (l.foldl (fun attrs i =>
        attrs.insert (attr_key_at e handle i) (attr_value_at e handle i)) m) k =
      match (l.filter fun i => attr_key_at e handle i == k).getLast? with
      | some i => some (attr_value_at e handle i)
      | none => m k := by
  induction l using List.reverseRecOn with
  | nil => rfl
  | append_singleton l a ih =>
    rw [List.foldl_append]
    simp only [List.foldl_cons, List.foldl_nil]
    by_cases hk : (attr_key_at e handle a == k) = true
    · have hka : attr_key_at e handle a = k := by simpa using hk
      have hfil : List.filter (fun i => attr_key_at e handle i == k) (l ++ [a]) =
          List.filter (fun i => attr_key_at e handle i == k) l ++ [a] := by
        rw [List.filter_append]; simp [hk]
      rw [hfil, List.getLast?_concat]
      show (if k = attr_key_at e handle a then some (attr_value_at e handle a) else _) = _
      rw [if_pos hka.symm]
    · have hfil : List.filter (fun i => attr_key_at e handle i == k) (l ++ [a]) =
          List.filter (fun i => attr_key_at e handle i == k) l := by
        rw [List.filter_append]; simp [hk]
      rw [hfil]
      show (if k = attr_key_at e handle a then some (attr_value_at e handle a) else _) = _
      rw [if_neg (fun hc => hk (by simp [hc]))]
      exact ih

theorem emptyToNone_eq_none_iff (s : String) :
    (if s.isEmpty then none else some s) = none ↔ s = "" := by
  split <;> rename_i h <;> simp_all [String.isEmpty_iff]

theorem emptyToNone_eq_some_iff (s t : String) :
    (if s.isEmpty then none else some s) = some t ↔ s = t ∧ t ≠ "" := by
  split <;> rename_i h
  · rw [String.isEmpty_iff] at h
    subst h
    constructor
    · intro hc; cases hc
    · rintro ⟨rfl, hne⟩; exact absurd rfl hne
  · rw [String.isEmpty_iff] at h
    constructor
    · intro hc; cases hc; exact ⟨rfl, h⟩
    · rintro ⟨rfl, _⟩; rfl

theorem emptyToNone_no_empty_some (s : String) :
    ((if s.isEmpty then none else some s).all fun v => !v.isEmpty) = true := by
  split <;> rename_i h <;> simp_all

theorem guardedEmptyToNone_eq_none_iff (g : Bool) (s : String) :
    (if !g then none else if s.isEmpty then none else some s) = none ↔
      g = false ∨ s = "" := by
  cases g <;> simp [String.isEmpty_iff]

theorem guardedEmptyToNone_eq_some_iff (g : Bool) (s t : String) :
    (if !g then none else if s.isEmpty then none else some s) = some t ↔
      g = true ∧ s = t ∧ t ≠ "" := by
  cases g
  · simp
  · simpa using emptyToNone_eq_some_iff s t

theorem guardedEmptyToNone_no_empty_some (g : Bool) (s : String) :
    ((if !g then none else if s.isEmpty then none else some s).all
      fun v => !v.isEmpty) = true := by
  cases g
  · simp
  · simpa using emptyToNone_no_empty_some s

theorem imports_foldl_trace (e : Engine) (braw : Nat) (l : List Nat)
    (acc : HMap ImportBinding × List ImportEv) :
    (l.foldl (imports_step e braw) acc).2 =
      acc.2 ++ (l.map (import_iter_trace e braw)).flatten := by
  induction l using List.reverseRecOn with
  | nil => simp
  | append_singleton l a ih =>
    rw [List.foldl_append, List.foldl_cons, List.foldl_nil, List.map_append,
      List.flatten_append]
    by_cases hz : e.vue_script_imports_value_at braw a = 0 <;>
      simp [imports_step, import_iter_trace, hz, ih]

theorem imports_foldl_map (e : Engine) (braw : Nat) (l : List Nat)
    (acc : HMap ImportBinding × List ImportEv) (k : String) :
    (l.foldl (imports_step e braw) acc).1 k =
      match (l.filter fun i => e.vue_script_imports_value_at braw i != 0 &&
          (ptr_to_str (e.vue_script_imports_key_at braw i) == k)).getLast? with
      | some i => some (import_record e (e.vue_script_imports_value_at braw i))
      | none => acc.1 k := by
  induction l using List.reverseRecOn with
  | nil => rfl
  | append_singleton l a ih =>
    rw [List.foldl_append, List.foldl_cons, List.foldl_nil, List.filter_append]
    by_cases hz : e.vue_script_imports_value_at braw a = 0
    · have hfil : List.filter (fun i => e.vue_script_imports_value_at braw i != 0 &&
          (ptr_to_str (e.vue_script_imports_key_at braw i) == k)) [a] = [] := by
        simp [hz]
      rw [hfil, List.append_nil]
      have hstep : imports_step e braw (l.foldl (imports_step e braw) acc) a =
          ((l.foldl (imports_step e braw) acc).1,
            (l.foldl (imports_step e braw) acc).2 ++
              [.key_read a, .fetch (e.vue_script_imports_value_at braw a)]) := by
        simp [imports_step, hz]
      rw [hstep]
      exact ih
    · have hstep : imports_step e braw (l.foldl (imports_step e braw) acc) a =
          ((l.foldl (imports_step e braw) acc).1.insert
              (ptr_to_str (e.vue_script_imports_key_at braw a))
              (import_record e (e.vue_script_imports_value_at braw a)),
            (l.foldl (imports_step e braw) acc).2 ++
              [.key_read a, .fetch (e.vue_script_imports_value_at braw a),
                .field_read (e.vue_script_imports_value_at braw a),
                .field_read (e.vue_script_imports_value_at braw a),
                .field_read (e.vue_script_imports_value_at braw a),
                .field_read (e.vue_script_imports_value_at braw a),
                .free (e.vue_script_imports_value_at braw a)]) := by
        simp [imports_step, hz, import_record]
      rw [hstep]
      by_cases hk : (ptr_to_str (e.vue_script_imports_key_at braw a) == k) = true
      · have hfil : List.filter (fun i => e.vue_script_imports_value_at braw i != 0 &&
            (ptr_to_str (e.vue_script_imports_key_at braw i) == k)) [a] = [a] := by
          simp [hz, hk]
        rw [hfil, List.getLast?_concat]
        have hka : ptr_to_str (e.vue_script_imports_key_at braw a) = k := by
          simpa using hk
        show (if k = ptr_to_str (e.vue_script_imports_key_at braw a)
            then some (import_record e (e.vue_script_imports_value_at braw a))
            else _) = _
        rw [if_pos hka.symm]
      · have hfil : List.filter (fun i => e.vue_script_imports_value_at braw i != 0 &&
            (ptr_to_str (e.vue_script_imports_key_at braw i) == k)) [a] = [] := by
          simp only [List.filter_cons, List.filter_nil]
          rw [if_neg]
          intro hc
          exact hk (Bool.and_elim_right hc)
        rw [hfil, List.append_nil]
        show (if k = ptr_to_str (e.vue_script_imports_key_at braw a)
            then some (import_record e (e.vue_script_imports_value_at braw a))
            else (l.foldl (imports_step e braw) acc).1 k) = _
        rw [if_neg (fun hc => hk (by simp [hc]))]
        exact ih

/-! ### Claim theorems -/

/-- C1: a `Handle` wrapper built by `Handle::new` from a nonzero raw value
issues, over its whole lifecycle (any sequence of accessor operations
followed by the `Drop` at scope exit), exactly one `hermes_handle_free`
call; that call carries the wrapped raw value and the owning runtime, it is
issued by the drop (the accessor operations issue none), and no issued call
ever carries the invalid sentinel `0`. -/
theorem handle_wrapper_single_release_at_drop (k owner : Nat) (ops : List HandleOp) :
    Handle.new (k + 1) owner = some ⟨k + 1, owner⟩ ∧
    Handle.lifecycleEvents ⟨k + 1, owner⟩ ops = [⟨owner, k + 1⟩] ∧
    (Handle.lifecycleEvents ⟨k + 1, owner⟩ ops).count ⟨owner, k + 1⟩ = 1 ∧
    ((Handle.lifecycleEvents ⟨k + 1, owner⟩ ops).all fun ev => ev.handle != 0) = true ∧
    (ops.map (Handle.opFreeEvents ⟨k + 1, owner⟩)).flatten = [] := by
  have hflat := opFreeEvents_flatten_nil ⟨k + 1, owner⟩ ops
  have hlife : Handle.lifecycleEvents ⟨k + 1, owner⟩ ops = [⟨owner, k + 1⟩] := by
    simp [Handle.lifecycleEvents, hflat, Handle.dropEvents]
  refine ⟨rfl, hlife, ?_, ?_, hflat⟩
  · rw [hlife]; simp
  · rw [hlife]; simp

/-- C2: `Handle::new(raw, owner)` returns `None` exactly when `raw` is the
invalid sentinel `0`; for every nonzero raw value it returns `Some` of a
wrapper storing exactly that raw value and that owner. -/
theorem handle_new_rejects_only_sentinel (raw k owner : Nat) :
    (Handle.new raw owner = none ↔ raw = 0) ∧
    Handle.new (k + 1) owner = some ⟨k + 1, owner⟩ := by
  constructor
  · unfold Handle.new; split <;> simp_all
  · rfl

/-- C3: `Compiler::parse`, `Compiler::compile_template`, `Compiler::compile_style`
and `Descriptor::compile_script` return their typed error exactly when the
underlying engine call returns the invalid sentinel handle `0`; on a nonzero
handle they return `Ok`, and the compilation error count carried by the
parse/template result stays retrievable data on the `Ok` value (it never
turns the operation into an error). -/
theorem operations_err_iff_invalid_handle (e : Engine) (c : Compiler)
    (source filename id : String) (scoped_flag is_prod : Bool)
    (bindings : Option ScriptOutput) (d : Descriptor) :
    (Compiler.parse e c source filename = .error ⟨"Parse returned invalid handle"⟩ ↔
      e.vue_parse source filename = 0) ∧
    ((Compiler.parse e c source filename).toOption.map (fun po => po.error_count e) =
      if e.vue_parse source filename = 0 then none
      else some (e.vue_parse_result_error_count (e.vue_parse source filename))) ∧
    (Compiler.compile_template e c source filename id scoped_flag bindings =
        .error ⟨"compile_template returned invalid handle"⟩ ↔
      e.vue_compile_template source filename id scoped_flag
        ((bindings.map fun b => b.bindings_handle e).getD 0) = 0) ∧
    ((Compiler.compile_template e c source filename id scoped_flag bindings).toOption.map
        (fun t => t.error_count e) =
      if e.vue_compile_template source filename id scoped_flag
          ((bindings.map fun b => b.bindings_handle e).getD 0) = 0 then none
      else some (e.vue_template_result_error_count
        (e.vue_compile_template source filename id scoped_flag
          ((bindings.map fun b => b.bindings_handle e).getD 0)))) ∧
    (Compiler.compile_style e c source filename id scoped_flag =
        .error ⟨"compile_style returned invalid handle"⟩ ↔
      e.vue_compile_style source filename id scoped_flag = 0) ∧
    (Descriptor.compile_script e d id is_prod =
        .error ⟨"compile_script returned invalid handle"⟩ ↔
      e.vue_compile_script d.h.raw id is_prod = 0) := by
  refine ⟨?_, ?_, ?_, ?_, ?_, ?_⟩
  · by_cases hz : e.vue_parse source filename = 0 <;>
      simp [Compiler.parse, hz]
  · by_cases hz : e.vue_parse source filename = 0 <;>
      simp [Compiler.parse, hz, Except.toOption, ParseOutput.error_count]
  · by_cases hz : e.vue_compile_template source filename id scoped_flag
        ((bindings.map fun b => b.bindings_handle e).getD 0) = 0 <;>
      simp [Compiler.compile_template, hz]
  · by_cases hz : e.vue_compile_template source filename id scoped_flag
        ((bindings.map fun b => b.bindings_handle e).getD 0) = 0 <;>
      simp [Compiler.compile_template, hz, Except.toOption, TemplateOutput.error_count]
  · by_cases hz : e.vue_compile_style source filename id scoped_flag = 0 <;>
      simp [Compiler.compile_style, hz]
  · by_cases hz : e.vue_compile_script d.h.raw id is_prod = 0 <;>
      simp [Descriptor.compile_script, okOrElse, Handle.new, hz]

/-- C4: `ParseOutput::has_errors` is true exactly when the error count is
positive or no descriptor could be obtained; `TemplateOutput::has_errors`
is true exactly when the error count is positive. -/
theorem has_errors_characterization (e : Engine) (po : ParseOutput) (t : TemplateOutput) :
    (po.has_errors e = true ↔ 0 < po.error_count e ∨ po.descriptor e = none) ∧
    (t.has_errors e = true ↔ 0 < t.error_count e) := by
  constructor
  · simp [ParseOutput.has_errors, Option.isNone_iff_eq_none]
  · simp [TemplateOutput.has_errors]

/-- C6: the value-or-absent accessors: each block's `src` is `None` exactly
when the engine's string result is empty and `Some` of that string
otherwise; `setup_value` additionally is `None` whenever the block is not a
setup block, `module_name` whenever the style block has no module; none of
them ever yields a present-but-empty `Some ""`. -/
theorem value_or_absent_accessors (e : Engine) (tb : TemplateBlock)
    (sb : ScriptBlock) (stb : StyleBlock) (cb : CustomBlock) (s : String) :
    (tb.src e = none ↔ ptr_to_str (e.vue_block_src tb.h.raw) = "") ∧
    (tb.src e = some s ↔ ptr_to_str (e.vue_block_src tb.h.raw) = s ∧ s ≠ "") ∧
    (sb.src e = none ↔ ptr_to_str (e.vue_block_src sb.h.raw) = "") ∧
    (sb.src e = some s ↔ ptr_to_str (e.vue_block_src sb.h.raw) = s ∧ s ≠ "") ∧
    (stb.src e = none ↔ ptr_to_str (e.vue_block_src stb.h.raw) = "") ∧
    (stb.src e = some s ↔ ptr_to_str (e.vue_block_src stb.h.raw) = s ∧ s ≠ "") ∧
    (cb.src e = none ↔ ptr_to_str (e.vue_block_src cb.h.raw) = "") ∧
    (cb.src e = some s ↔ ptr_to_str (e.vue_block_src cb.h.raw) = s ∧ s ≠ "") ∧
    (sb.setup_value e = none ↔
      sb.is_setup e = false ∨ ptr_to_str (e.vue_script_setup_value sb.h.raw) = "") ∧
    (sb.setup_value e = some s ↔
      sb.is_setup e = true ∧ ptr_to_str (e.vue_script_setup_value sb.h.raw) = s ∧ s ≠ "") ∧
    (stb.module_name e = none ↔
      stb.has_module e = false ∨ ptr_to_str (e.vue_style_module_value stb.h.raw) = "") ∧
    (stb.module_name e = some s ↔
      stb.has_module e = true ∧ ptr_to_str (e.vue_style_module_value stb.h.raw) = s ∧ s ≠ "") ∧
    ((tb.src e).all fun v => !v.isEmpty) = true ∧
    ((sb.src e).all fun v => !v.isEmpty) = true ∧
    ((stb.src e).all fun v => !v.isEmpty) = true ∧
    ((cb.src e).all fun v => !v.isEmpty) = true ∧
    ((sb.setup_value e).all fun v => !v.isEmpty) = true ∧
    ((stb.module_name e).all fun v => !v.isEmpty) = true := by
  exact ⟨emptyToNone_eq_none_iff _, emptyToNone_eq_some_iff _ _,
    emptyToNone_eq_none_iff _, emptyToNone_eq_some_iff _ _,
    emptyToNone_eq_none_iff _, emptyToNone_eq_some_iff _ _,
    emptyToNone_eq_none_iff _, emptyToNone_eq_some_iff _ _,
    guardedEmptyToNone_eq_none_iff _ _, guardedEmptyToNone_eq_some_iff _ _ _,
    guardedEmptyToNone_eq_none_iff _ _, guardedEmptyToNone_eq_some_iff _ _ _,
    emptyToNone_no_empty_some _, emptyToNone_no_empty_some _,
    emptyToNone_no_empty_some _, emptyToNone_no_empty_some _,
    guardedEmptyToNone_no_empty_some _ _, guardedEmptyToNone_no_empty_some _ _⟩

/-- C7: `attrs()` yields the mapping keyed by attribute name whose entry for
a key `k` is the one produced by the last index reporting that name —
`Bool(true)` when the engine reports the attribute boolean, `String` of the
engine's value string otherwise (`attr_value_at`); and on the
`<style scoped lang="scss">` scenario it yields exactly
`scoped ↦ Bool(true), lang ↦ String("scss")`. -/
theorem attrs_two_case_last_write_wins (e : Engine) (handle : Nat) (k : String) :
    (get_block_attrs e handle k =
      ((List.range (e.vue_block_attrs_count handle)).filter
        (fun i => attr_key_at e handle i == k)).getLast?.map (attr_value_at e handle)) ∧
    StyleBlock.attrs attrsDemoEngine ⟨⟨1, 0⟩⟩ k =
      (if k = "scoped" then some (.Bool true)
       else if k = "lang" then some (.String ("scss")) else none) := by
  constructor
  · rw [get_block_attrs, attrs_foldl_lookup]
    cases ((List.range (e.vue_block_attrs_count handle)).filter
        (fun i => attr_key_at e handle i == k)).getLast? <;> rfl
  · have h0 : attr_key_at attrsDemoEngine 1 0 = "scoped" := by decide
    have h1 : attr_key_at attrsDemoEngine 1 1 = "lang" := by decide
    have v0 : attr_value_at attrsDemoEngine 1 0 = .Bool true := by decide
    have v1 : attr_value_at attrsDemoEngine 1 1 = .String ("scss") := by decide
    have hmap : StyleBlock.attrs attrsDemoEngine ⟨⟨1, 0⟩⟩ =
        (HMap.empty.insert ("scoped") (AttrValue.Bool true)).insert ("lang") (.String ("scss")) := by
      show (HMap.empty.insert (attr_key_at attrsDemoEngine 1 0)
          (attr_value_at attrsDemoEngine 1 0)).insert (attr_key_at attrsDemoEngine 1 1)
          (attr_value_at attrsDemoEngine 1 1) = _
      rw [h0, h1, v0, v1]
    by_cases hk1 : k = "scoped"
    · subst hk1; decide
    · by_cases hk2 : k = "lang"
      · subst hk2; decide
      · rw [hmap]
        show (if k = "lang" then _ else if k = "scoped" then _ else _) = _
        simp [hk1, hk2, HMap.empty]

/-- C8: `Descriptor::has_scoped_style` is true exactly when some index below
`style_count` yields a valid (nonzero) style-block handle whose `is_scoped`
query answers true; and the two-style-block scenario (one scoped, one not)
yields `style_count = 2` and `has_scoped_style = true`. -/
theorem has_scoped_style_iff_exists_scoped_block (e : Engine) (d : Descriptor) :
    (d.has_scoped_style e = true ↔
      ∃ i, i < d.style_count e ∧ e.vue_descriptor_style_at d.h.raw i ≠ 0 ∧
        e.vue_style_is_scoped (e.vue_descriptor_style_at d.h.raw i) = true) ∧
    Descriptor.style_count twoStyleEngine ⟨⟨9, 0⟩⟩ = 2 ∧
    Descriptor.has_scoped_style twoStyleEngine ⟨⟨9, 0⟩⟩ = true := by
  refine ⟨?_, by decide, by decide⟩
  simp only [Descriptor.has_scoped_style, Descriptor.styles, List.any_eq_true,
    List.mem_filterMap, List.mem_range, Handle.new, StyleBlock.is_scoped]
  constructor
  · rintro ⟨s, ⟨i, hi, hsome⟩, hsc⟩
    by_cases hz : e.vue_descriptor_style_at d.h.raw i = 0
    · rw [if_pos hz] at hsome
      cases hsome
    · rw [if_neg hz] at hsome
      cases hsome
      exact ⟨i, hi, hz, hsc⟩
  · rintro ⟨i, hi, hz, hsc⟩
    exact ⟨⟨⟨e.vue_descriptor_style_at d.h.raw i, d.h.owner⟩⟩,
      ⟨i, hi, by rw [if_neg hz]; rfl⟩, hsc⟩

/-- C5: during `ScriptBlock::imports()`, the event trace decomposes into
per-index iteration segments; within the segment of an index whose secondary
handle is valid, exactly one `hermes_handle_free` of that handle is issued,
it is the segment's last event (immediately after the four scalar field
reads), segments free no handle other than their own index's, and the
returned map holds only the copied scalar records (an `ImportBinding`, which
carries no handle), keyed by the key string, last write winning. -/
theorem imports_secondary_handle_scoped_release (e : Engine) (b : ScriptBlock)
    (i : Nat) (k : String) :
    ((b.imports e).2 =
      ((List.range (b.imports_count e)).map (import_iter_trace e b.h.raw)).flatten) ∧
    ((import_iter_trace e b.h.raw i).count
        (.free (e.vue_script_imports_value_at b.h.raw i)) =
      if e.vue_script_imports_value_at b.h.raw i = 0 then 0 else 1) ∧
    ((import_iter_trace e b.h.raw i).filter
        (fun ev => match ev with | .free _ => true | _ => false) =
      if e.vue_script_imports_value_at b.h.raw i = 0 then []
      else [.free (e.vue_script_imports_value_at b.h.raw i)]) ∧
    ((import_iter_trace e b.h.raw i).getLast? = some
      (if e.vue_script_imports_value_at b.h.raw i = 0
       then .fetch (e.vue_script_imports_value_at b.h.raw i)
       else .free (e.vue_script_imports_value_at b.h.raw i))) ∧
    ((b.imports e).1 k =
      (((List.range (b.imports_count e)).filter fun j =>
          e.vue_script_imports_value_at b.h.raw j != 0 &&
          (ptr_to_str (e.vue_script_imports_key_at b.h.raw j) == k)).getLast?).map
        (fun j => import_record e (e.vue_script_imports_value_at b.h.raw j))) := by
  refine ⟨?_, ?_, ?_, ?_, ?_⟩
  · rw [ScriptBlock.imports, imports_foldl_trace]
    rfl
  · by_cases hz : e.vue_script_imports_value_at b.h.raw i = 0 <;>
      simp [import_iter_trace, hz, List.count_cons]
  · by_cases hz : e.vue_script_imports_value_at b.h.raw i = 0 <;>
      simp [import_iter_trace, hz]
  · by_cases hz : e.vue_script_imports_value_at b.h.raw i = 0 <;>
      simp [import_iter_trace, hz]
  · rw [ScriptBlock.imports, imports_foldl_map]
    cases ((List.range (b.imports_count e)).filter fun j =>
        e.vue_script_imports_value_at b.h.raw j != 0 &&
        (ptr_to_str (e.vue_script_imports_key_at b.h.raw j) == k)).getLast? <;> rfl

/-- C10: `ptr_to_str` is total at the FFI boundary — a null pointer and
ill-formed UTF-8 both yield the empty string rather than a failure — and
consequently the value-or-absent accessors (`src`, `setup_value`,
`module_name`) treat a null pointer from the engine exactly like an absent
attribute, returning `None`. -/
theorem ptr_to_str_total_boundary :
    ptr_to_str .null = "" ∧
    (∀ bs, utf8Decode bs = none → ptr_to_str (.bytes bs) = "") ∧
    (∀ (e : Engine) (tb : TemplateBlock),
      e.vue_block_src tb.h.raw = .null → tb.src e = none) ∧
    (∀ (e : Engine) (sb : ScriptBlock),
      e.vue_script_setup_value sb.h.raw = .null → sb.setup_value e = none) ∧
    (∀ (e : Engine) (stb : StyleBlock),
      e.vue_style_module_value stb.h.raw = .null → stb.module_name e = none) := by
  refine ⟨rfl, ?_, ?_, ?_, ?_⟩
  · intro bs h
    simp [ptr_to_str, h]
  · intro e tb h
    unfold TemplateBlock.src
    rw [h]
    rfl
  · intro e sb h
    unfold ScriptBlock.setup_value
    rw [h]
    cases hset : ScriptBlock.is_setup e sb <;> rfl
  · intro e stb h
    unfold StyleBlock.module_name
    rw [h]
    cases hmod : StyleBlock.has_module e stb <;> rfl

/-- Witness for C10: the theorem applied at a concrete ill-formed byte
sequence and at a concrete engine that answers the three accessors' string
queries with a null pointer while reporting a setup block and a module. -/
theorem ptr_to_str_total_boundary_witness :
    ptr_to_str .null = "" ∧
    ptr_to_str (.bytes [255]) = "" ∧
    TemplateBlock.src nullValueEngine ⟨⟨1, 0⟩⟩ = none ∧
    ScriptBlock.setup_value nullValueEngine ⟨⟨1, 0⟩⟩ = none ∧
    StyleBlock.module_name nullValueEngine ⟨⟨1, 0⟩⟩ = none :=
  ⟨ptr_to_str_total_boundary.1,
    ptr_to_str_total_boundary.2.1 [255] (by decide),
    ptr_to_str_total_boundary.2.2.1 nullValueEngine ⟨⟨1, 0⟩⟩ rfl,
    ptr_to_str_total_boundary.2.2.2.1 nullValueEngine ⟨⟨1, 0⟩⟩ rfl,
    ptr_to_str_total_boundary.2.2.2.2 nullValueEngine ⟨⟨1, 0⟩⟩ rfl⟩
